import Mathlib

/-! # Verification of the Polytube Replay telemetry core

Shallow embedding of the event ingestion, durable-encoding and shipping
pipeline of the Polytube/Replay repository, together with proofs of the
behavioural properties stated in its specification.

Conventions:
* Go `float64` values are modelled as rationals (`ℚ`); all comparisons in the
  source are exact comparisons, so the rational model is faithful.
* Go maps are modelled either as association lists (`List (String × α)`) or as
  total functions with a default value, matching Go's zero-value lookup.
* Goroutine interleavings are modelled by explicit operation sequences; traces
  of side effects (scheduled uploads, shutdown steps) are returned as lists.
* A Go `panic` is modelled by an `Option` result being `none`.
-/

namespace Polytube

/-- Go `models.EventType` (src/pkg/models/event.go). -/
inductive EventType
  | inputLog
  | consoleLog
  | recordingStarted
deriving DecidableEq, Repr

/-- Go `EventType.String()` from src/pkg/models/event.go. -/
def EventType.toStr : EventType → String
  | .inputLog => "INPUT_LOG"
  | .consoleLog => "CONSOLE_LOG"
  | .recordingStarted => "RECORDING_STARTED"

/-- Go `models.EventLevel` (src/pkg/models/event.go). -/
inductive EventLevel
  | log
  | warning
  | error
  | mouse
  | keyboard
  | joypad
  | unknownDevice
deriving DecidableEq, Repr

/-- Go `EventLevel.String()` from src/pkg/models/event.go. -/
def EventLevel.toStr : EventLevel → String
  | .log => "LOG"
  | .warning => "WARNING"
  | .error => "ERROR"
  | .mouse => "MOUSE"
  | .keyboard => "KEYBOARD"
  | .joypad => "JOYPAD"
  | .unknownDevice => "UNKNOWN_DEVICE"

/-- Go `models.Event` (src/pkg/models/event.go): one analytics record.
`Timestamp` and `Value` are Go `float64`, modelled as `ℚ`. -/
structure Event where
  timestamp : ℚ
  eventType : String
  eventLevel : String
  content : String
  value : ℚ
deriving DecidableEq, Repr

/-! ## Go map helpers

The listeners' `lastStates` map (`map[string]float64`) is modelled as an
association list with Go map semantics: lookup finds the unique entry for a
key, assignment replaces it in place (or appends a fresh entry). -/

/-- Lookup in an association list (Go `v, ok := m[k]`). -/
def lookupKey {α : Type} : List (String × α) → String → Option α
  | [], _ => none
  | (k', v) :: rest, k => if k' = k then some v else lookupKey rest k

/-- Assignment in an association list (Go `m[k] = v`): replaces the entry for
`k` if present, appends it otherwise. -/
def setKey {α : Type} : List (String × α) → String → α → List (String × α)
  | [], k, v => [(k, v)]
  | (k', v') :: rest, k, v =>
      if k' = k then (k, v) :: rest else (k', v') :: setKey rest k v

theorem lookupKey_setKey_self {α : Type} (m : List (String × α)) (k : String) (v : α) :
    lookupKey (setKey m k v) k = some v := by
  induction m with
  | nil => simp [setKey, lookupKey]
  | cons hd tl ih =>
      obtain ⟨k', v'⟩ := hd
      by_cases h : k' = k
      · simp [setKey, h, lookupKey]
      · simp [setKey, h, lookupKey, ih]

/-! ## Normalizer: GamepadInputListener (src/internal/input/gamepad_listener.go)

`GamepadInputListener.logEvent` deduplicates observations against the
`lastStates` cache keyed by `level.String() + ":" + key`.  The analog
threshold branch applies to `EventLevelJoypad`; the exact-change branch
applies to everything.  On emit the cache is updated *before* the event is
handed to the event logger. -/

/-- Go `ANALOG_THRESHOLD` constant (gamepad_listener.go line 19): `0.1`. -/
def ANALOG_THRESHOLD : ℚ := 1/10

/-- The `lastStates` cache of a `GamepadInputListener`. -/
def GamepadState : Type := List (String × ℚ)

/-- Go `GamepadInputListener.logEvent` (gamepad_listener.go lines 112–142).
Returns the updated `lastStates` cache and the event handed to
`EventLogger.LogEvent`, if any.  `ts` is the wall-clock value returned by
`utils.NowEpochSeconds()` at this observation. -/
def gamepadLogEvent (s : GamepadState) (level : EventLevel) (key : String)
    (value ts : ℚ) : GamepadState × Option Event :=
  if key = "" then (s, none)
  else
    let id := level.toStr ++ ":" ++ key
    match lookupKey s id with
    | some prev =>
        if level = EventLevel.joypad ∧ |prev - value| < ANALOG_THRESHOLD then
          (s, none)
        else if prev = value then
          (s, none)
        else
          (setKey s id value,
           some { timestamp := ts, eventType := EventType.inputLog.toStr,
                  eventLevel := level.toStr, content := key, value := value })
    | none =>
        (setKey s id value,
         some { timestamp := ts, eventType := EventType.inputLog.toStr,
                eventLevel := level.toStr, content := key, value := value })

/-- Run `gamepadLogEvent` over a sequence of observations
`(level, key, value, ts)`, collecting the emitted events. -/
def gamepadRun (s : GamepadState) :
    List (EventLevel × String × ℚ × ℚ) → GamepadState × List Event
  | [] => (s, [])
  | (level, key, value, ts) :: rest =>
      let step := gamepadLogEvent s level key value ts
      let tail := gamepadRun step.1 rest
      (tail.1, step.2.toList ++ tail.2)

/-! ## Normalizer: MNKInputListener (src/unnamed/part_003)

`MNKInputListener.logEvent` (part_003 lines 121–134) carries **no**
`lastStates` cache: every observation with a non-empty key is handed to the
event logger unconditionally, despite the function's header comment
"Deduplicated logging with thresholds". -/

/-- Go `MNKInputListener.logEvent` (part_003 lines 122–134). -/
def mnkLogEvent (level : EventLevel) (key : String) (value ts : ℚ) :
    Option Event :=
  if key = "" then none
  else
    some { timestamp := ts, eventType := EventType.inputLog.toStr,
           eventLevel := level.toStr, content := key, value := value }

/-- Run `mnkLogEvent` over a sequence of observations, collecting the events
handed to the event logger. -/
def mnkRun : List (EventLevel × String × ℚ × ℚ) → List Event
  | [] => []
  | (level, key, value, ts) :: rest =>
      (mnkLogEvent level key value ts).toList ++ mnkRun rest

/-- The specification's analog policy, written from the spec's words for
comparison with the code: the first observation emits, and a later
observation emits exactly when its absolute difference from the last
*emitted* value is at least the threshold. -/
def analogSpecEmits : Option ℚ → List ℚ → List ℚ
  | _, [] => []
  | none, v :: vs => v :: analogSpecEmits (some v) vs
  | some last, v :: vs =>
      if ANALOG_THRESHOLD ≤ |v - last| then v :: analogSpecEmits (some v) vs
      else analogSpecEmits (some last) vs

theorem gamepadRun_joypad_analog (key : String) (h : key ≠ "")
    (obs : List (ℚ × ℚ)) :
    ∀ s : GamepadState,
      ((gamepadRun s (obs.map fun p => (EventLevel.joypad, key, p.1, p.2))).2).map
          Event.value
        = analogSpecEmits (lookupKey s (EventLevel.joypad.toStr ++ ":" ++ key))
            (obs.map Prod.fst) := by
  induction obs with
  | nil => intro s; simp [gamepadRun, analogSpecEmits]
  | cons p rest ih =>
      intro s
      obtain ⟨v, ts⟩ := p
      simp only [List.map_cons, gamepadRun]
      rcases hl : lookupKey s (EventLevel.joypad.toStr ++ ":" ++ key) with _ | prev
      · -- first observation for this key: always emits
        simp only [gamepadLogEvent, if_neg h, hl]
        simp only [Option.toList_some, List.map_append, List.map_cons,
          List.map_nil, List.singleton_append, List.cons_append, List.nil_append]
        rw [ih, lookupKey_setKey_self]
        simp [analogSpecEmits]
      · -- cached value present: emits iff the threshold is crossed
        simp only [gamepadLogEvent, if_neg h, hl]
        by_cases hthr : |prev - v| < ANALOG_THRESHOLD
        · have hc : True ∧ |prev - v| < ANALOG_THRESHOLD := ⟨trivial, hthr⟩
          rw [if_pos hc]
          have hspec : ¬ ANALOG_THRESHOLD ≤ |v - prev| := by
            rw [abs_sub_comm]; exact not_le.mpr hthr
          simp only [analogSpecEmits, List.map_cons]
          rw [if_neg hspec]
          simpa [hl] using ih s
        · have hc : ¬ (True ∧ |prev - v| < ANALOG_THRESHOLD) := fun hc => hthr hc.2
          rw [if_neg hc]
          have hne : prev ≠ v := by
            intro heq
            apply hthr
            rw [heq]
            simp only [sub_self, abs_zero, ANALOG_THRESHOLD]
            norm_num
          rw [if_neg hne]
          have hspec : ANALOG_THRESHOLD ≤ |v - prev| := by
            rw [abs_sub_comm]; exact not_lt.mp hthr
          simp only [Option.toList_some, List.map_append, List.map_cons,
            List.map_nil, List.singleton_append, List.cons_append, List.nil_append]
          rw [ih, lookupKey_setKey_self]
          simp only [analogSpecEmits, List.map_cons]
          rw [if_pos hspec]

/-- C3: for every sequence of analog-class (joypad) observations on the same
non-empty key, `GamepadInputListener.logEvent` emits an event exactly when it
is the first observation for that key or the absolute difference from the
last *emitted* value is at least `ANALOG_THRESHOLD` (0.1); the baseline is
always the last emitted value because `lastStates` is updated only on emit
(and the returned cache already holds the new value when the event is handed
to the sink). -/
theorem gamepad_analog_emits_iff_threshold (key : String) (h : key ≠ "")
    (obs : List (ℚ × ℚ)) :
    ((gamepadRun [] (obs.map fun p => (EventLevel.joypad, key, p.1, p.2))).2).map
        Event.value
      = analogSpecEmits none (obs.map Prod.fst) := by
  have := gamepadRun_joypad_analog key h obs ([] : GamepadState)
  simpa [lookupKey] using this

/-- Witness for `gamepad_analog_emits_iff_threshold`: axis observations
0.0, 0.02, 0.5 on `LeftTrigger` emit exactly at 0.0 and 0.5 (spec scenario 2). -/
theorem gamepad_analog_emits_iff_threshold_witness :
    "LeftTrigger" ≠ ""
      ∧ ((gamepadRun []
            ([(0, 10), (2/100, 11), (5/10, 12)].map
              fun p => (EventLevel.joypad, "LeftTrigger", p.1, p.2))).2).map
            Event.value
          = analogSpecEmits none ([(0, 10), (2/100, 11), (5/10, 12)].map
              Prod.fst)
      ∧ analogSpecEmits none [0, 2/100, 5/10] = [0, 5/10] := by
  refine ⟨by decide, gamepad_analog_emits_iff_threshold "LeftTrigger"
    (by decide) [(0, 10), (2/100, 11), (5/10, 12)], ?_⟩
  norm_num [analogSpecEmits, ANALOG_THRESHOLD, abs_of_nonneg]

/-- C2 (code bug): `MNKInputListener.logEvent` performs no deduplication at
all — its header comment says "Deduplicated logging with thresholds" but the
function has no `lastStates` cache — so observing keyboard key `VK_A` with
values 1, 1, 0 hands three events to the sink, where the claim (and the
spec's scenario 1) requires exactly the two events (A,1) and (A,0). -/
theorem mnk_keyboard_duplicate_both_emit :
    mnkRun [(EventLevel.keyboard, "VK_A", 1, 100),
            (EventLevel.keyboard, "VK_A", 1, 101),
            (EventLevel.keyboard, "VK_A", 0, 102)]
      = [{ timestamp := 100, eventType := "INPUT_LOG", eventLevel := "KEYBOARD",
           content := "VK_A", value := 1 },
         { timestamp := 101, eventType := "INPUT_LOG", eventLevel := "KEYBOARD",
           content := "VK_A", value := 1 },
         { timestamp := 102, eventType := "INPUT_LOG", eventLevel := "KEYBOARD",
           content := "VK_A", value := 0 }] := by
  decide

/-! ## Lifecycle Orchestrator: shutdown (src/cmd/replay/main.go lines 300–355)

`shutdown` is straight-line code; we model it as the trace of its externally
visible actions, keeping the two nil-guards (`svcs.upl != nil`,
`svcs.internalLogger != nil`) as booleans of the bundle.  Logger `Info`/`Error`
calls are diagnostics, not lifecycle actions, and are not traced. -/

/-- One externally visible action of `shutdown` (main.go lines 308–355). -/
inductive ShutdownAction
  | cancelCtx
  | closeEventLogger
  | uploadRemaining
  | waitUploads
  | closeInternalLogger
  | uploadLogFile
deriving DecidableEq, Repr

/-- The nil-guards of `shutdown`: whether `svcs.upl` and `svcs.internalLogger`
are non-nil (`startServices` always populates both). -/
structure ShutdownBundle where
  uplPresent : Bool
  intLogPresent : Bool

/-- The action trace of `shutdown` (main.go lines 308–355): cancel the shared
context; close the event logger; if the uploader is present, `UploadRemaining`
then `WG.Wait`; if the internal logger is present, close it; if the uploader
is present, `UploadLogFile` then `WG.Wait`. -/
def shutdownTrace (b : ShutdownBundle) : List ShutdownAction :=
  [ShutdownAction.cancelCtx, ShutdownAction.closeEventLogger]
    ++ (if b.uplPresent then
          [ShutdownAction.uploadRemaining, ShutdownAction.waitUploads] else [])
    ++ (if b.intLogPresent then [ShutdownAction.closeInternalLogger] else [])
    ++ (if b.uplPresent then
          [ShutdownAction.uploadLogFile, ShutdownAction.waitUploads] else [])

/-- C1: with the uploader and the internal logger present (as `startServices`
always arranges), `shutdown` performs exactly: signal cancellation; close the
event sink; schedule the remaining uploads and wait for them; close the
diagnostic log; schedule the diagnostic log's upload; wait for it.  In
particular the diagnostic log's upload is scheduled only after the
remaining-files wait and the log close. -/
theorem shutdown_order_exact (b : ShutdownBundle) (h1 : b.uplPresent = true)
    (h2 : b.intLogPresent = true) :
    shutdownTrace b
      = [ShutdownAction.cancelCtx, ShutdownAction.closeEventLogger,
         ShutdownAction.uploadRemaining, ShutdownAction.waitUploads,
         ShutdownAction.closeInternalLogger, ShutdownAction.uploadLogFile,
         ShutdownAction.waitUploads] := by
  simp [shutdownTrace, h1, h2]

/-- Witness for `shutdown_order_exact` at the bundle `main` builds. -/
theorem shutdown_order_exact_witness :
    (⟨true, true⟩ : ShutdownBundle).uplPresent = true
      ∧ (⟨true, true⟩ : ShutdownBundle).intLogPresent = true
      ∧ shutdownTrace ⟨true, true⟩
          = [ShutdownAction.cancelCtx, ShutdownAction.closeEventLogger,
             ShutdownAction.uploadRemaining, ShutdownAction.waitUploads,
             ShutdownAction.closeInternalLogger, ShutdownAction.uploadLogFile,
             ShutdownAction.waitUploads] :=
  ⟨rfl, rfl, shutdown_order_exact ⟨true, true⟩ rfl rfl⟩

/-! ## Event Sink: bounded-queue asynchronous backend (src/unnamed/part_001,
second file)

`LogEvent` does a non-blocking channel send (`select` with `default`): if the
4096-slot buffer has room the event is enqueued, otherwise it is dropped.  The
function is total — it returns on every queue state without waiting.  `Close`
executes `close(l.done)`; closing an already-closed Go channel panics, which we
model as `none`. -/

/-- The buffered channel capacity of the bounded-queue backend
(part_001: `make(chan models.Event, 4096)`). -/
def QUEUE_CAPACITY : Nat := 4096

/-- State of the bounded-queue asynchronous `ParquetEventLogger`:
the buffered channel contents and whether `done` has been closed. -/
structure AsyncSinkState where
  queue : List Event
  doneClosed : Bool
deriving DecidableEq

/-- Go `ParquetEventLogger.LogEvent`, bounded-queue variant (part_001 lines
180–187): non-blocking send on the 4096-capacity channel, dropping the event
when the buffer is full. -/
def logEventAsync (s : AsyncSinkState) (e : Event) : AsyncSinkState :=
  if s.queue.length < QUEUE_CAPACITY then { s with queue := s.queue ++ [e] }
  else s

/-- Go `ParquetEventLogger.Close`, bounded-queue variant (part_001 lines
189–193): `close(l.done)`.  Closing an already-closed channel panics (`none`). -/
def closeAsync (s : AsyncSinkState) :
    Option (AsyncSinkState × Except String Unit) :=
  if s.doneClosed then none
  else some ({ s with doneClosed := true }, Except.ok ())

/-- C8: the bounded-queue backend's `LogEvent` is a total function of the
queue state — it never waits: with free space the event is appended to the
queue, and with the queue at capacity the event is dropped and the queue is
left unchanged. -/
theorem logEventAsync_enqueue_or_drop (s : AsyncSinkState) (e : Event) :
    (s.queue.length < QUEUE_CAPACITY →
        logEventAsync s e = { s with queue := s.queue ++ [e] })
      ∧ (QUEUE_CAPACITY ≤ s.queue.length → logEventAsync s e = s) := by
  constructor
  · intro hlt
    simp [logEventAsync, hlt]
  · intro hge
    simp [logEventAsync, not_lt.mpr hge]

/-- Witness for `logEventAsync_enqueue_or_drop`: an empty queue accepts the
event; a full queue (4096 entries) drops it. -/
theorem logEventAsync_enqueue_or_drop_witness :
    logEventAsync ⟨[], false⟩
        { timestamp := 1, eventType := "INPUT_LOG", eventLevel := "KEYBOARD",
          content := "VK_A", value := 1 }
      = ⟨[{ timestamp := 1, eventType := "INPUT_LOG", eventLevel := "KEYBOARD",
            content := "VK_A", value := 1 }], false⟩
      ∧ logEventAsync
          ⟨List.replicate 4096
             { timestamp := 1, eventType := "INPUT_LOG",
               eventLevel := "KEYBOARD", content := "VK_A", value := 1 },
           false⟩
          { timestamp := 2, eventType := "INPUT_LOG", eventLevel := "KEYBOARD",
            content := "VK_A", value := 0 }
        = ⟨List.replicate 4096
             { timestamp := 1, eventType := "INPUT_LOG",
               eventLevel := "KEYBOARD", content := "VK_A", value := 1 },
           false⟩ := by
  constructor
  · have h := (logEventAsync_enqueue_or_drop ⟨[], false⟩
      { timestamp := 1, eventType := "INPUT_LOG", eventLevel := "KEYBOARD",
        content := "VK_A", value := 1 }).1 (by simp [QUEUE_CAPACITY])
    simpa using h
  · exact (logEventAsync_enqueue_or_drop _ _).2
      (by rw [List.length_replicate]; exact Nat.le.refl)

/-! ## Event Sink: Close across the backends (C5)

Three `Close` implementations:
* `ParquetEventLogger.Close` in src/internal/events/event_logger.go lines
  60–79 guards on `l.writer == nil` and sets `l.writer = nil` after success;
* `ArrowEventLogger.Close` (same file, lines 175–187) closes the IPC writer
  and then the file with no guard — a second `Close` re-closes the `os.File`,
  which returns `os.ErrClosed`;
* the bounded-queue `ParquetEventLogger.Close` (part_001 lines 189–193) runs
  `close(l.done)` — a second call closes an already-closed channel and panics.

The outcomes of the underlying library calls (`WriteStop`, file close) are
inputs to the models. -/

/-- State of the synchronous `ParquetEventLogger` of event_logger.go:
whether `l.writer` is non-nil. -/
structure SyncParquetState where
  writerOpen : Bool
deriving DecidableEq

/-- Go `ParquetEventLogger.Close` (event_logger.go lines 61–79): return nil when
the writer is already nil; otherwise `WriteStop`, close the file, and nil the
writer only after both succeed. -/
def closeSyncParquet (s : SyncParquetState) (writeStopOk fileCloseOk : Bool) :
    SyncParquetState × Except String Unit :=
  if s.writerOpen = false then (s, Except.ok ())
  else if writeStopOk = false then (s, Except.error "close parquet writer")
  else if fileCloseOk = false then (s, Except.error "close parquet file")
  else ({ writerOpen := false }, Except.ok ())

/-- State of the `ArrowEventLogger`: whether the underlying file has been
closed already. -/
structure ArrowState where
  fileClosed : Bool
deriving DecidableEq

/-- Go `ArrowEventLogger.Close` (event_logger.go lines 176–187): close the IPC
writer, then `l.file.Close()`; there is no already-closed guard, and closing
an `os.File` a second time returns an error. -/
def closeArrow (s : ArrowState) (writerCloseOk : Bool) :
    ArrowState × Except String Unit :=
  if writerCloseOk = false then (s, Except.error "arrow event logger close writer")
  else if s.fileClosed then (s, Except.error "arrow event logger close file")
  else ({ fileClosed := true }, Except.ok ())

/-- C5 counterexample: on the bounded-queue backend, the first `Close`
succeeds but a second `Close` closes the already-closed `done` channel and
panics (`none`) — `Close` is not safe to call twice on every backend. -/
theorem closeAsync_second_close_panics :
    closeAsync ⟨[], false⟩ = some (⟨[], true⟩, Except.ok ())
      ∧ closeAsync ⟨[], true⟩ = none := by
  constructor <;> rfl

/-- C5 (amended): on the synchronous Parquet backend of event_logger.go,
`Close` is idempotent — after a `Close` that returned nil, any further
`Close` returns nil (the writer has been nilled out and is guarded); on the
bounded-queue backend a second `Close` panics, and on the Arrow backend a
second `Close` returns an error. -/
theorem closeSyncParquet_idempotent (s : SyncParquetState)
    (writeStopOk fileCloseOk writeStopOk' fileCloseOk' : Bool)
    (h : (closeSyncParquet s writeStopOk fileCloseOk).2 = Except.ok ()) :
    (closeSyncParquet (closeSyncParquet s writeStopOk fileCloseOk).1
        writeStopOk' fileCloseOk').2 = Except.ok ()
      ∧ (closeArrow (closeArrow ⟨false⟩ true).1 true).2
          = Except.error "arrow event logger close file" := by
  refine ⟨?_, rfl⟩
  rcases s with ⟨_ | _⟩
  · simp [closeSyncParquet]
  · rcases writeStopOk with _ | _
    · simp [closeSyncParquet] at h
    · rcases fileCloseOk with _ | _
      · simp [closeSyncParquet] at h
      · simp [closeSyncParquet]

/-- Witness for `closeSyncParquet_idempotent`: double close from an open
writer whose `WriteStop` and file close succeed. -/
theorem closeSyncParquet_idempotent_witness :
    (closeSyncParquet ⟨true⟩ true true).2 = Except.ok ()
      ∧ (closeSyncParquet (closeSyncParquet ⟨true⟩ true true).1 true true).2
          = Except.ok ()
      ∧ (closeArrow (closeArrow ⟨false⟩ true).1 true).2
          = Except.error "arrow event logger close file" := by
  refine ⟨rfl, ?_, ?_⟩
  · exact (closeSyncParquet_idempotent ⟨true⟩ true true true true rfl).1
  · exact (closeSyncParquet_idempotent ⟨true⟩ true true true true rfl).2

/-! ## Round-trip of the event encodings (C10)

* Line-delimited text backend (src/unnamed/part_002, `EventLogger.LogEvent`):
  `json.Marshal(event)` — `models.Event` has no `json` struct tags, so Go
  serializes the exported field names `Timestamp`, `EventType`, `EventLevel`,
  `Content`, `Value`.  We model the JSON document tree and decoding by field
  lookup.
* Buffered columnar backend (part_001 first file): `LogEvent` copies the five
  fields into an `EventParquetRow`.
* Arrow backend (event_logger.go, `ArrowEventLogger.LogEvent`): appends the
  five fields to the five column builders of a fresh one-row record. -/

/-- A JSON document tree (numbers, strings, objects suffice for `Event`). -/
inductive Json
  | jnum (q : ℚ)
  | jstr (s : String)
  | jobj (fields : List (String × Json))

/-- Go `json.Marshal` of a `models.Event` (Go default field names — the struct
has parquet tags but no json tags). -/
def encodeEventJson (e : Event) : Json :=
  Json.jobj [("Timestamp", Json.jnum e.timestamp),
             ("EventType", Json.jstr e.eventType),
             ("EventLevel", Json.jstr e.eventLevel),
             ("Content", Json.jstr e.content),
             ("Value", Json.jnum e.value)]

/-- Go `json.Unmarshal` of an `Event` document: look up the five fields and
require the right primitive kinds. -/
def decodeEventJson : Json → Option Event
  | Json.jobj fields =>
      match lookupKey fields "Timestamp", lookupKey fields "EventType",
          lookupKey fields "EventLevel", lookupKey fields "Content",
          lookupKey fields "Value" with
      | some (Json.jnum ts), some (Json.jstr et), some (Json.jstr el),
          some (Json.jstr c), some (Json.jnum v) =>
          some { timestamp := ts, eventType := et, eventLevel := el,
                 content := c, value := v }
      | _, _, _, _, _ => none
  | _ => none

/-- Go `EventParquetRow` (part_001 lines 15–21): the parquet schema row. -/
structure EventParquetRow where
  timestamp : ℚ
  eventType : String
  eventLevel : String
  content : String
  value : ℚ
deriving DecidableEq, Repr

/-- The field copy in the buffered parquet `LogEvent` (part_001 lines 56–62). -/
def eventToParquetRow (e : Event) : EventParquetRow :=
  { timestamp := e.timestamp, eventType := e.eventType,
    eventLevel := e.eventLevel, content := e.content, value := e.value }

/-- Reading an `EventParquetRow` back as an `Event` (same five columns). -/
def parquetRowToEvent (r : EventParquetRow) : Event :=
  { timestamp := r.timestamp, eventType := r.eventType,
    eventLevel := r.eventLevel, content := r.content, value := r.value }

/-- A one-record Arrow batch: the five column lists of the schema declared in
`NewArrowEventLogger` (event_logger.go lines 113–119). -/
structure ArrowBatch where
  timestamps : List ℚ
  eventTypes : List String
  eventLevels : List String
  contents : List String
  values : List ℚ
deriving DecidableEq, Repr

/-- Go `ArrowEventLogger.LogEvent` (event_logger.go lines 141–173) appends the
five fields of the event to a fresh builder, producing a one-row record. -/
def arrowRecordOf (e : Event) : ArrowBatch :=
  { timestamps := [e.timestamp], eventTypes := [e.eventType],
    eventLevels := [e.eventLevel], contents := [e.content],
    values := [e.value] }

/-- Reading a one-row Arrow record back as an `Event`. -/
def arrowRecordToEvent : ArrowBatch → Option Event
  | { timestamps := [ts], eventTypes := [et], eventLevels := [el],
      contents := [c], values := [v] } =>
      some { timestamp := ts, eventType := et, eventLevel := el,
             content := c, value := v }
  | _ => none

/-- C10: writing an `Event` through any of the three sink encodings and
decoding the stored record gives back an event equal on all five fields;
in particular JSON encode-then-decode is the identity. -/
theorem event_encodings_roundtrip (e : Event) :
    decodeEventJson (encodeEventJson e) = some e
      ∧ parquetRowToEvent (eventToParquetRow e) = e
      ∧ arrowRecordToEvent (arrowRecordOf e) = some e :=
  ⟨rfl, rfl, rfl⟩

/-! ## Upload Tracker (src/unnamed/part_004)

`Uploader` keeps an in-memory `map[string]bool` of uploaded paths (modelled
as a total function with Go's zero-value `false` for absent keys).  Directory
walks are modelled over an explicit listing of `DirEntry`s; scheduling
`go u.uploadFile(path)` is recorded by returning the scheduled paths. -/

/-- Path separators recognised on the target platform. -/
def isSep (c : Char) : Bool := c == '/' || c == '\\'

/-- Go `path/filepath.Ext`: the suffix beginning at the final dot in the final
path element, empty when that element has no dot. -/
def extOf (path : String) : String :=
  let seg := path.toList.reverse.takeWhile fun c => !(isSep c)
  match seg.findIdx? fun c => c == '.' with
  | none => ""
  | some i => String.mk ((seg.take (i + 1)).reverse)

/-- Split a path into its separator-delimited elements. -/
def splitSeps : List Char → List Char → List String
  | cur, [] => [String.mk cur.reverse]
  | cur, c :: cs =>
      if isSep c then String.mk cur.reverse :: splitSeps [] cs
      else splitSeps (c :: cur) cs

/-- The element stack of lexical path cleaning: drop empty and `.` elements,
resolve `..` against the stack. -/
def cleanStack (rooted : Bool) : List String → List String → List String
  | stack, [] => stack
  | stack, e :: rest =>
      if e = "" || e = "." then cleanStack rooted stack rest
      else if e = ".." then
        match stack with
        | [] =>
            if rooted then cleanStack rooted [] rest
            else cleanStack rooted [".."] rest
        | top :: stk =>
            if top = ".." then cleanStack rooted (".." :: top :: stk) rest
            else cleanStack rooted stk rest
      else cleanStack rooted (e :: stack) rest

/-- Go `path/filepath.Clean`'s lexical cleaning (separator-normalised):
Go compares `filepath.Clean(path) == filepath.Clean(u.InternalLogFilePath)`
in `UploadRemaining`. -/
def cleanPath (s : String) : String :=
  if s = "" then "."
  else
    let rooted :=
      match s.toList with
      | c :: _ => isSep c
      | [] => false
    let elems := (cleanStack rooted [] (splitSeps [] s.toList)).reverse
    let body := String.intercalate "/" elems
    if rooted then "/" ++ body
    else if body = "" then "." else body

/-- The `Uploader` fields that the scan/upload logic reads (part_004 lines
39–52); `uploadedFiles` models the `UploadedFiles` map with Go's zero-value
lookup. -/
structure UploaderState where
  dirPath : String
  apiID : String
  apiKey : String
  uploadedFiles : String → Bool
  internalLogFilePath : String

/-- One entry observed by `filepath.WalkDir`: its path, whether it is a
directory, whether `os.Stat` succeeds, and the seconds since its last
modification at scan time. -/
structure DirEntry where
  path : String
  isDir : Bool
  statOk : Bool
  modAgeSeconds : ℚ

/-- Go `isStable` (part_004 lines 305–312): `os.Stat` succeeded and the file was
last modified more than 2 seconds ago. -/
def isStable (e : DirEntry) : Bool :=
  e.statOk && decide ((2 : ℚ) < e.modAgeSeconds)

/-- Go `Uploader.isUploaded` (part_004 lines 291–295). -/
def isUploaded (u : UploaderState) (p : String) : Bool := u.uploadedFiles p

/-- Go `Uploader.markUploaded` (part_004 lines 297–301): `UploadedFiles[path] = true`. -/
def markUploaded (u : UploaderState) (p : String) : UploaderState :=
  { u with uploadedFiles := fun x => if x = p then true else u.uploadedFiles x }

/-- Concatenate the uploads scheduled by a per-entry visitor over a walk. -/
def walkSchedule (visit : DirEntry → List String) : List DirEntry → List String
  | [] => []
  | e :: rest => visit e ++ walkSchedule visit rest

/-- The `WalkDir` callback of `Uploader.UploadTS` (part_004 lines 69–91):
skip directories, non-`.ts` files, already-uploaded paths and unstable files;
otherwise schedule `go u.uploadFile(path)`. -/
def uploadTSVisit (u : UploaderState) (e : DirEntry) : List String :=
  if e.isDir = true then []
  else if extOf e.path ≠ ".ts" then []
  else if isUploaded u e.path = true then []
  else if isStable e = false then []
  else [e.path]

/-- Go `Uploader.UploadTS` (part_004 lines 57–92): empty `DirPath` or missing
credentials abort the scan; otherwise walk and schedule. -/
def uploadTS (u : UploaderState) (entries : List DirEntry) : List String :=
  if u.dirPath = "" then []
  else if u.apiID = "" ∨ u.apiKey = "" then []
  else walkSchedule (uploadTSVisit u) entries

/-- The `WalkDir` callback of `Uploader.UploadRemaining` (part_004 lines
103–126): skip directories, the internal log file (by cleaned-path equality,
only when `InternalLogFilePath` is set) and already-uploaded paths; otherwise
schedule `go u.uploadFile(path)`. -/
def uploadRemainingVisit (u : UploaderState) (e : DirEntry) : List String :=
  if e.isDir = true then []
  else if u.internalLogFilePath ≠ ""
      ∧ cleanPath e.path = cleanPath u.internalLogFilePath then []
  else if isUploaded u e.path = true then []
  else [e.path]

/-- Go `Uploader.UploadRemaining` (part_004 lines 96–127). -/
def uploadRemaining (u : UploaderState) (entries : List DirEntry) : List String :=
  if u.apiID = "" ∨ u.apiKey = "" then []
  else walkSchedule (uploadRemainingVisit u) entries

/-- An interleaving step of the upload subsystem: a periodic `.ts` scan, a
shutdown remaining-files scan, or the completion (success) of an in-flight
`uploadFile` task, which is the only point where a path gets marked. -/
inductive UploadOp
  | scanTS (entries : List DirEntry)
  | scanRemaining (entries : List DirEntry)
  | complete (path : String)

/-- Run an interleaving of scans and upload completions, collecting every
scheduled upload (`WG.Add(1); go u.uploadFile(path)`) in order. -/
def runUploadOps (u : UploaderState) : List UploadOp → UploaderState × List String
  | [] => (u, [])
  | UploadOp.scanTS es :: rest =>
      let t := runUploadOps u rest
      (t.1, uploadTS u es ++ t.2)
  | UploadOp.scanRemaining es :: rest =>
      let t := runUploadOps u rest
      (t.1, uploadRemaining u es ++ t.2)
  | UploadOp.complete p :: rest => runUploadOps (markUploaded u p) rest

/-- The `Uploader` as `startServices` builds it (main.go lines 218–228),
with a data directory holding one finished segment. -/
def sampleUploader : UploaderState :=
  { dirPath := "C:/out/data", apiID := "id", apiKey := "key",
    uploadedFiles := fun _ => false,
    internalLogFilePath := "C:/out/data/internal.log" }

/-- A stable, not-yet-uploaded `.ts` segment. -/
def sampleSegment : DirEntry :=
  { path := "C:/out/data/seg0.ts", isDir := false, statOk := true,
    modAgeSeconds := 5 }

/-- C4 counterexample: two scans with no completion in between both schedule
the same not-yet-marked path — the scan checks only `isUploaded`, which is
set on completion, so an in-flight (scheduled but unfinished) upload does not
prevent a second task for the same path. -/
theorem uploadTS_double_schedules_unmarked_path :
    (runUploadOps sampleUploader
        [UploadOp.scanTS [sampleSegment], UploadOp.scanTS [sampleSegment]]).2
        = ["C:/out/data/seg0.ts", "C:/out/data/seg0.ts"]
      ∧ isUploaded sampleUploader "C:/out/data/seg0.ts" = false := by
  constructor <;> rfl

theorem mem_walkSchedule {visit : DirEntry → List String} {p : String} :
    ∀ {es : List DirEntry}, p ∈ walkSchedule visit es →
      ∃ e, e ∈ es ∧ p ∈ visit e := by
  intro es
  induction es with
  | nil => intro h; simp [walkSchedule] at h
  | cons e rest ih =>
      intro h
      rcases List.mem_append.mp h with h1 | h2
      · exact ⟨e, List.mem_cons_self e rest, h1⟩
      · obtain ⟨e', he', hp⟩ := ih h2
        exact ⟨e', List.mem_cons_of_mem e he', hp⟩

theorem mem_uploadTSVisit {u : UploaderState} {e : DirEntry} {p : String}
    (hp : p ∈ uploadTSVisit u e) :
    p = e.path ∧ isUploaded u e.path = false := by
  unfold uploadTSVisit at hp
  split_ifs at hp with h1 h2 h3 h4
  all_goals simp at hp
  subst hp
  refine ⟨rfl, ?_⟩
  simpa using h3

theorem mem_uploadRemainingVisit {u : UploaderState} {e : DirEntry} {p : String}
    (hp : p ∈ uploadRemainingVisit u e) :
    p = e.path ∧ isUploaded u e.path = false
      ∧ ¬(u.internalLogFilePath ≠ ""
            ∧ cleanPath e.path = cleanPath u.internalLogFilePath) := by
  unfold uploadRemainingVisit at hp
  split_ifs at hp with h1 h2 h3
  all_goals simp at hp
  subst hp
  refine ⟨rfl, by simpa using h3, h2⟩

/-- C4 (amended): marking a path uploaded is idempotent, and a scan never
schedules a path that is already *marked* uploaded; but a path whose upload
has been scheduled and not yet completed can be scheduled again by a later
scan (the uploader tracks only completed uploads, not in-flight tasks). -/
theorem markUploaded_idempotent_and_marked_not_rescheduled
    (u : UploaderState) (p : String) (entries : List DirEntry)
    (h : u.uploadedFiles p = true) :
    markUploaded (markUploaded u p) p = markUploaded u p
      ∧ p ∉ uploadTS u entries
      ∧ p ∉ uploadRemaining u entries := by
  refine ⟨?_, ?_, ?_⟩
  · simp only [markUploaded]
    congr 1
    funext x
    by_cases hx : x = p <;> simp [hx]
  · intro hmem
    unfold uploadTS at hmem
    split_ifs at hmem with h1 h2
    · simp at hmem
    · simp at hmem
    · obtain ⟨e, _, hpe⟩ := mem_walkSchedule hmem
      obtain ⟨rfl, hfalse⟩ := mem_uploadTSVisit hpe
      rw [isUploaded] at hfalse
      rw [h] at hfalse
      exact Bool.true_eq_false.mp hfalse
  · intro hmem
    unfold uploadRemaining at hmem
    split_ifs at hmem with h1
    · simp at hmem
    · obtain ⟨e, _, hpe⟩ := mem_walkSchedule hmem
      obtain ⟨rfl, hfalse, _⟩ := mem_uploadRemainingVisit hpe
      rw [isUploaded] at hfalse
      rw [h] at hfalse
      exact Bool.true_eq_false.mp hfalse

/-- Witness for `markUploaded_idempotent_and_marked_not_rescheduled`: once
the sample segment is marked, a new scan schedules nothing for it. -/
theorem markUploaded_idempotent_and_marked_not_rescheduled_witness :
    (markUploaded sampleUploader "C:/out/data/seg0.ts").uploadedFiles
        "C:/out/data/seg0.ts" = true
      ∧ "C:/out/data/seg0.ts"
          ∉ uploadTS (markUploaded sampleUploader "C:/out/data/seg0.ts")
              [sampleSegment] := by
  refine ⟨rfl, ?_⟩
  exact (markUploaded_idempotent_and_marked_not_rescheduled
    (markUploaded sampleUploader "C:/out/data/seg0.ts") "C:/out/data/seg0.ts"
    [sampleSegment] rfl).2.1

/-- C9: every path scheduled by `UploadRemaining` differs, after cleaning,
from the cleaned internal log path (the walk callback skips exactly that
file), provided the internal log path is set — `main` always sets it. -/
theorem uploadRemaining_excludes_internal_log (u : UploaderState)
    (entries : List DirEntry) (p : String)
    (hlog : u.internalLogFilePath ≠ "")
    (hp : p ∈ uploadRemaining u entries) :
    cleanPath p ≠ cleanPath u.internalLogFilePath := by
  unfold uploadRemaining at hp
  split_ifs at hp with h1
  · simp at hp
  · obtain ⟨e, _, hpe⟩ := mem_walkSchedule hp
    obtain ⟨rfl, _, hskip⟩ := mem_uploadRemainingVisit hpe
    intro hclean
    exact hskip ⟨hlog, hclean⟩

/-- Witness for `uploadRemaining_excludes_internal_log`: the sample segment
is scheduled by `UploadRemaining` and its cleaned path differs from the
cleaned internal log path. -/
theorem uploadRemaining_excludes_internal_log_witness :
    sampleUploader.internalLogFilePath ≠ ""
      ∧ "C:/out/data/seg0.ts" ∈ uploadRemaining sampleUploader [sampleSegment]
      ∧ cleanPath "C:/out/data/seg0.ts"
          ≠ cleanPath sampleUploader.internalLogFilePath := by
  refine ⟨by decide, ?_, ?_⟩
  · show "C:/out/data/seg0.ts" ∈ uploadRemaining sampleUploader [sampleSegment]
    have : uploadRemaining sampleUploader [sampleSegment]
        = ["C:/out/data/seg0.ts"] := rfl
    rw [this]
    exact List.mem_singleton.mpr rfl
  · exact uploadRemaining_excludes_internal_log sampleUploader [sampleSegment]
      "C:/out/data/seg0.ts" (by decide)
      (by
        have : uploadRemaining sampleUploader [sampleSegment]
            = ["C:/out/data/seg0.ts"] := rfl
        rw [this]
        exact List.mem_singleton.mpr rfl)

/-! ## Upload transmission: `uploadFile` (part_004 lines 146–163)

`uploadFile` first requests a signed URL (`getSignedURL`, lines 205–249),
then PUTs the raw bytes (`putFileToSignedURL`, lines 252–280), and calls
`markUploaded` only if both succeeded; on any error it logs with
`Logger.Error` and returns without marking.  An HTTP exchange is either a
response with a status code and body, or a transport error from
`client.Do`. -/

/-- The outcome of one HTTP exchange as `uploadFile`'s helpers see it. -/
inductive HttpResult
  | resp (status : Nat) (body : String)
  | netError (msg : String)

/-- A 2xx outcome: a response whose status lies in [200, 300). -/
def is2xx : HttpResult → Bool
  | HttpResult.resp st _ => decide (200 ≤ st) && decide (st < 300)
  | HttpResult.netError _ => false

/-- Go `strings.TrimSpace` on the signed-URL body. -/
def trimSpace (s : String) : String :=
  let ws : Char → Bool := fun c => c == ' ' || c == '\t' || c == '\n' || c == '\r'
  String.mk ((s.toList.dropWhile ws).reverse.dropWhile ws).reverse

/-- Go `Uploader.getSignedURL` (part_004 lines 205–249): transport errors and
non-2xx statuses are errors; otherwise the trimmed body is the signed URL. -/
def getSignedURL (signResp : HttpResult) : Except String String :=
  match signResp with
  | HttpResult.netError m => Except.error ("GET request failed: " ++ m)
  | HttpResult.resp st body =>
      if st < 200 ∨ 300 ≤ st then
        Except.error ("server returned " ++ toString st ++ ": " ++ body)
      else Except.ok (trimSpace body)

/-- Go `Uploader.putFileToSignedURL` (part_004 lines 252–280): failing to open
the file, a transport error, and a non-2xx status are all errors. -/
def putFileToSignedURL (openOk : Bool) (putResp : HttpResult) :
    Except String Unit :=
  if openOk = false then Except.error "open file"
  else
    match putResp with
    | HttpResult.netError m => Except.error ("PUT request failed: " ++ m)
    | HttpResult.resp st body =>
        if st < 200 ∨ 300 ≤ st then
          Except.error ("upload failed (status " ++ toString st ++ "): " ++ body)
        else Except.ok ()

/-- Go `Uploader.uploadFile` (part_004 lines 146–163).  Returns the new uploader
state and whether a failure was logged via `Logger.Error`; `markUploaded`
runs only when both steps succeeded. -/
def uploadFile (u : UploaderState) (path : String) (signResp : HttpResult)
    (openOk : Bool) (putResp : HttpResult) : UploaderState × Bool :=
  match getSignedURL signResp with
  | Except.error _ => (u, true)
  | Except.ok _ =>
      match putFileToSignedURL openOk putResp with
      | Except.error _ => (u, true)
      | Except.ok _ => (markUploaded u path, false)

/-- C7: for a not-yet-uploaded path, `uploadFile` marks the path uploaded
exactly when the signed-URL GET got a 2xx response, the file opened, and the
PUT got a 2xx response; on any failure (transport error or non-2xx at either
step, or open failure) the state is unchanged — the path stays unmarked and
eligible for the next periodic scan — and the failure is logged. -/
theorem uploadFile_marks_iff_both_steps_2xx (u : UploaderState) (path : String)
    (signResp : HttpResult) (openOk : Bool) (putResp : HttpResult)
    (h : u.uploadedFiles path = false) :
    ((uploadFile u path signResp openOk putResp).1.uploadedFiles path = true
        ↔ is2xx signResp = true ∧ openOk = true ∧ is2xx putResp = true)
      ∧ (¬(is2xx signResp = true ∧ openOk = true ∧ is2xx putResp = true) →
          (uploadFile u path signResp openOk putResp).1 = u
            ∧ (uploadFile u path signResp openOk putResp).2 = true) := by
  rcases signResp with ⟨st, body⟩ | m
  · by_cases hst : st < 200 ∨ 300 ≤ st
    · have hsign : is2xx (HttpResult.resp st body) = false := by
        simp only [is2xx, Bool.and_eq_false_iff, decide_eq_false_iff_not, not_le,
          not_lt]
        omega
      simp [uploadFile, getSignedURL, if_pos hst, hsign, h]
    · have hsign : is2xx (HttpResult.resp st body) = true := by
        simp only [is2xx, Bool.and_eq_true, decide_eq_true_eq]
        omega
      rcases openOk with _ | _
      · simp [uploadFile, getSignedURL, if_neg hst, putFileToSignedURL, hsign, h]
      · rcases putResp with ⟨st', body'⟩ | m'
        · by_cases hst' : st' < 200 ∨ 300 ≤ st'
          · have hput : is2xx (HttpResult.resp st' body') = false := by
              simp only [is2xx, Bool.and_eq_false_iff, decide_eq_false_iff_not,
                not_le, not_lt]
              omega
            simp [uploadFile, getSignedURL, if_neg hst, putFileToSignedURL,
              if_pos hst', hsign, hput, h]
          · have hput : is2xx (HttpResult.resp st' body') = true := by
              simp only [is2xx, Bool.and_eq_true, decide_eq_true_eq]
              omega
            simp [uploadFile, getSignedURL, if_neg hst, putFileToSignedURL,
              if_neg hst', hsign, hput, markUploaded]
        · simp [uploadFile, getSignedURL, if_neg hst, putFileToSignedURL,
            is2xx, hsign, h]
  · simp [uploadFile, getSignedURL, is2xx, h]

/-- Witness for `uploadFile_marks_iff_both_steps_2xx`: a 200 signed-URL
response followed by a 200 PUT marks the sample segment; a 500 signed-URL
response leaves it unmarked. -/
theorem uploadFile_marks_iff_both_steps_2xx_witness :
    sampleUploader.uploadedFiles "C:/out/data/seg0.ts" = false
      ∧ (uploadFile sampleUploader "C:/out/data/seg0.ts"
            (HttpResult.resp 200 "https://signed.example/u") true
            (HttpResult.resp 200 "")).1.uploadedFiles "C:/out/data/seg0.ts"
          = true
      ∧ (uploadFile sampleUploader "C:/out/data/seg0.ts"
            (HttpResult.resp 500 "boom") true
            (HttpResult.resp 200 "")).1.uploadedFiles "C:/out/data/seg0.ts"
          = false := by
  refine ⟨rfl, ?_, ?_⟩
  · exact ((uploadFile_marks_iff_both_steps_2xx sampleUploader
      "C:/out/data/seg0.ts" (HttpResult.resp 200 "https://signed.example/u")
      true (HttpResult.resp 200 "") rfl).1).mpr ⟨rfl, rfl, rfl⟩
  · have hfail := ((uploadFile_marks_iff_both_steps_2xx sampleUploader
      "C:/out/data/seg0.ts" (HttpResult.resp 500 "boom")
      true (HttpResult.resp 200 "") rfl).2) (by intro hc; exact absurd hc.1 (by decide))
    rw [hfail.1]
    rfl

/-! ## Session registration and the uploader poller (C6)

`startServices` (main.go lines 178–298) fails only when creating the internal
logger or the event logger fails; it then starts the listeners and the
uploader poller goroutine and returns.  The poller (main.go lines 268–285)
calls `upl.CreateSession()` once, before consuming any tick; on error it logs
and returns — so no `UploadTS` scan ever runs — but nothing stops the other
services: startup has already succeeded. -/

/-- One action of the uploader poller goroutine (main.go lines 268–285). -/
inductive PollerAction
  | createSession
  | logSessionError (msg : String)
  | uploadTSScan
deriving DecidableEq, Repr

/-- The poller goroutine's action trace: `CreateSession` first; on error, log
and return; on success, one `UploadTS` per tick until the context is
cancelled (`ticks` = ticks observed before cancellation). -/
def pollerRun (sessionResult : Except String String) (ticks : Nat) :
    List PollerAction :=
  match sessionResult with
  | Except.error e => [PollerAction.createSession, PollerAction.logSessionError e]
  | Except.ok _ =>
      PollerAction.createSession :: List.replicate ticks PollerAction.uploadTSScan

/-- The services `startServices` (main.go lines 178–298) has started or
configured when it returns. -/
structure StartedServices where
  internalLoggerStarted : Bool
  eventLoggerStarted : Bool
  recorderConfigured : Bool
  uploaderConfigured : Bool
  mnkListenerStarted : Bool
  gamepadListenerStarted : Bool
  consoleListenerStarted : Bool
  pollerStarted : Bool
deriving DecidableEq, Repr

/-- Go `startServices` (main.go lines 178–298): returns an error (`none`) only
when creating the internal logger or the event logger fails.  The session
registration happens later, inside the poller goroutine, and cannot influence
this result. -/
def startServices (newLoggerOk newEventLoggerOk : Bool) :
    Option StartedServices :=
  if newLoggerOk = false then none
  else if newEventLoggerOk = false then none
  else some ⟨true, true, true, true, true, true, true, true⟩

/-- C6 counterexample: with the endpoint rejecting the credentials (a non-2xx
`CreateSession`), startup still completes — every service is started and
`startServices` returns successfully — while the poller logs the error and
exits without ever scanning.  The claim's "startup is aborted (fails fast)"
is false; only the poller goroutine stops. -/
theorem session_rejection_does_not_abort_startup :
    startServices true true
        = some ⟨true, true, true, true, true, true, true, true⟩
      ∧ pollerRun (Except.error "server returned 401: invalid key") 5
          = [PollerAction.createSession,
             PollerAction.logSessionError "server returned 401: invalid key"] :=
  ⟨rfl, rfl⟩

/-- C6 (amended): session registration is a one-time POST performed by the
poller before any periodic scan (it heads the trace and occurs exactly once),
and when the endpoint rejects it no `UploadTS` scan ever runs — but startup
is not aborted: `startServices` succeeds regardless of the registration
outcome. -/
theorem poller_registers_once_before_scans (r : Except String String)
    (e : String) (ticks : Nat) :
    (pollerRun r ticks).head? = some PollerAction.createSession
      ∧ (pollerRun r ticks).count PollerAction.createSession = 1
      ∧ (pollerRun (Except.error e) ticks).contains PollerAction.uploadTSScan
          = false
      ∧ (startServices true true).isSome = true := by
  refine ⟨?_, ?_, rfl, rfl⟩
  · cases r <;> rfl
  · cases r with
    | error msg => rfl
    | ok s =>
        simp [pollerRun, List.count_cons, List.count_replicate]

end Polytube
